import Mathlib

/-!
# Verification of the world-disaster-map dashboard (src/app.py)

Shallow embedding of the data-loading routine `load_data` and the reactive
callback `update_map_and_stats` of `src/app.py`, together with theorems
settling the specification claims.

Modelling conventions:
* A pandas numeric cell produced by `pd.to_numeric(x, errors="coerce")` is
  modelled as `Option ℚ`: `none` is NaN (the cell was missing or did not
  parse as a number), `some q` is the parsed numeric value.  Rationals stand
  in for IEEE floats; every literal appearing in the program and in the
  claims (2, 5, 4.999, 0.7, 30, coordinates) is represented exactly and the
  comparisons the code performs (`<`, `==`) agree with their float versions
  on these values.
* A text cell is `Option String`: `none` is a JSON null / absent key
  (NaN in the DataFrame), `some s` a present string (possibly empty).
* File I/O and JSON parsing are outside the program text; the loader is
  given `Option (List RawRecord)`: `none` models any failure raised inside
  the `try` block (missing file, malformed JSON, absent required column),
  `some rows` a successfully parsed JSON array of row objects.
-/

namespace DisasterMap

/-- One object of the input JSON array, after pandas per-cell coercions are
applied symbolically: numeric cells as parse results, text cells as present
or missing.  Field names follow the JSON keys used in `load_data`
(`Latitude`, `Longitude`, `Total Deaths`,
`Total Damage, Adjusted ("000 US$)`, `Start Year`, `Disaster Type`,
`Location`). -/
structure RawRecord where
  latitude : Option ℚ
  longitude : Option ℚ
  totalDeaths : Option ℚ
  totalDamage : Option ℚ
  startYear : Option ℚ
  disasterType : Option String
  location : Option String
  deriving Repr, DecidableEq

/-- A row of the DataFrame after the numeric coercions of `load_data`
lines 29-33: `Latitude`/`Longitude` keep their NaNs, `Total Deaths`,
`Total Damage` and `Start Year` have NaNs filled with 0, and `Start Year`
is truncated to an integer by `.astype(int)`.  Text columns are still
optional at this stage. -/
structure Row where
  latitude : Option ℚ
  longitude : Option ℚ
  totalDeaths : ℚ
  totalDamage : ℚ
  startYear : ℤ
  disasterType : Option String
  location : Option String
  deriving Repr, DecidableEq

/-- Python `int()` / numpy `.astype(int)` truncation toward zero. -/
def truncToInt (q : ℚ) : ℤ :=
  if q < 0 then ⌈q⌉ else ⌊q⌋

/-- Lines 29-33 of `load_data`: numeric coercions.
`Latitude`/`Longitude` are coerced but not filled; `Total Deaths` and
`Total Damage` get `.fillna(0)`; `Start Year` gets `.fillna(0).astype(int)`. -/
def coerceRow (r : RawRecord) : Row :=
  { latitude := r.latitude
  , longitude := r.longitude
  , totalDeaths := r.totalDeaths.getD 0
  , totalDamage := r.totalDamage.getD 0
  , startYear := truncToInt (r.startYear.getD 0)
  , disasterType := r.disasterType
  , location := r.location }

/-- Line 36: the `dropna(subset=["Latitude", "Longitude", "Disaster Type",
"Location"])` predicate — all four crucial cells are present. -/
def requiredPresent (r : Row) : Bool :=
  r.latitude.isSome && r.longitude.isSome &&
  r.disasterType.isSome && r.location.isSome

/-- Lines 39-41: `fillna("Unknown")` on the text columns `Disaster Type`
and `Location`.  (In the source this runs after the drop of line 36, so on
the rows it is actually applied to it is the identity.) -/
def fillUnknown (r : Row) : Row :=
  { r with disasterType := some (r.disasterType.getD "Unknown")
         , location := some (r.location.getD "Unknown") }

/-- The fixed disaster-type allow-list of line 44. -/
def allowedTypes : List String := ["Earthquake", "Flood", "Storm", "Drought"]

/-- Line 44: `df["Disaster Type"].isin(["Earthquake", "Flood", "Storm",
"Drought"])`.  A NaN cell is in no `isin` set. -/
def isAllowedType (r : Row) : Bool :=
  match r.disasterType with
  | some t => allowedTypes.contains t
  | none => false

/-- The cleaning pipeline of `load_data` applied to a successfully parsed
JSON array, in the order of the source: coerce (29-33), drop incomplete rows
(36), fill text NaNs with "Unknown" (39-41), keep allow-listed types (44). -/
def cleanData (rows : List RawRecord) : List Row :=
  (((rows.map coerceRow).filter requiredPresent).map fillUnknown).filter
    isAllowedType

/-- The result of `load_data`: either the processed DataFrame (which has all
seven columns even when it has zero rows), or the bare `pd.DataFrame()` of
the `except` branch of lines 46-48, which has no columns at all. -/
inductive LoadResult where
  /-- The `try` block succeeded: a DataFrame with the usual columns. -/
  | table (rows : List Row)
  /-- Some step inside `try` raised: `load_data` logged the error and
  returned the column-less empty `pd.DataFrame()`. -/
  | emptyFrame
  deriving Repr, DecidableEq

/-- The function `load_data` (lines 11-48).  `input = none` models any I/O or parse
failure inside the `try` block — missing file, malformed JSON, or a
required column absent (a column access on a frame lacking it raises
`KeyError`, also caught).  The failure is printed and swallowed and the
column-less `pd.DataFrame()` is returned. -/
def load_data (input : Option (List RawRecord)) : LoadResult :=
  match input with
  | some rows => .table (cleanData rows)
  | none => .emptyFrame

/-- The pandas `Series.min` / `Series.max` over the `Start Year` column: NaN (`none`) on an
empty column. -/
def columnMin (rows : List Row) : Option ℤ :=
  (rows.map Row.startYear).min?

def columnMax (rows : List Row) : Option ℤ :=
  (rows.map Row.startYear).max?

/-- The year-slider bounds computed while building `app.layout`
(lines 74-80). -/
structure SliderSpec where
  min : ℤ
  max : ℤ
  deriving Repr, DecidableEq

/-- Building the part of `app.layout` that reads the loaded table
(lines 74-80): `dcc.Slider(min=df["Start Year"].min(), max=..., ...,
marks={year: str(year) for year in range(df["Start Year"].min(), ...)})`.
On the column-less `pd.DataFrame()` of the failure path, `df["Start Year"]`
raises `KeyError`; on a table with zero rows, `min()`/`max()` are NaN and
`range(nan, ...)` raises `TypeError`.  Either exception is raised at module
load, outside any `try`, so the process dies before the server starts. -/
def buildLayout (r : LoadResult) : Except String SliderSpec :=
  match r with
  | .emptyFrame => .error "KeyError: Start Year"
  | .table rows =>
    match columnMin rows, columnMax rows with
    | some mn, some mx => .ok ⟨mn, mx⟩
    | _, _ => .error "TypeError: float object cannot be interpreted as an integer"

/-- A map center, the `{"lat": ..., "lon": ...}` dict. -/
structure Center where
  lat : ℚ
  lon : ℚ
  deriving Repr, DecidableEq

/-- The `map-state` store (lines 141-145): per-session viewport state. -/
structure MapState where
  zoom : ℚ
  center : Center
  deriving Repr, DecidableEq

/-- The initial store data of lines 141-145: zoom 2, center (20, 0). -/
def defaultMapState : MapState := { zoom := 2, center := { lat := 20, lon := 0 } }

/-- The viewport payload of a `relayoutData` dict: the optional keys
`mapbox.zoom` and `mapbox.center` that lines 173-179 look for.  The whole
event is itself optional (`relayout_data` may be `None` or an empty dict,
both falsy at line 172); that is an outer `Option` at the call site. -/
structure RelayoutData where
  zoom : Option ℚ
  center : Option Center
  deriving Repr, DecidableEq

/-- Lines 171-179 of `update_map_and_stats`: merge a viewport-change event
into the map state.  Each of the two keys is merged only when present;
a falsy `relayout_data` leaves the state untouched. -/
def updateMapState (state : MapState) (relayoutData : Option RelayoutData) :
    MapState :=
  match relayoutData with
  | none => state
  | some rd =>
    let s1 := match rd.zoom with
      | some z => { state with zoom := z }
      | none => state
    match rd.center with
    | some c => { s1 with center := { lat := c.lat, lon := c.lon } }
    | none => s1

/-- Lines 182-185: filter the table to the selected year and type.
A pandas `==` comparison against a NaN cell is `False`. -/
def filterTable (table : List Row) (selectedYear : ℤ) (selectedType : String) :
    List Row :=
  table.filter fun r =>
    decide (r.startYear = selectedYear) &&
    decide (r.disasterType = some selectedType)

/-- Which plotly-express constructor built the figure. -/
inductive FigKind where
  /-- The `px.scatter_mapbox` call on the one-row placeholder frame (lines 190-196). -/
  | placeholder
  /-- The `px.density_mapbox` call on the filtered rows (lines 200-212). -/
  | density
  /-- The `px.scatter_mapbox` call on the filtered rows (lines 215-228). -/
  | points
  deriving Repr, DecidableEq

/-- The map rendering descriptor: the constructor used, the point
coordinates handed to it, the scatter sizing/opacity options, and the final
viewport set by `fig.update_layout` (lines 231-238). -/
structure Figure where
  kind : FigKind
  lats : List ℚ
  lons : List ℚ
  /-- The `size="Total Deaths"` argument — only on the high-zoom scatter branch. -/
  sizes : Option (List ℚ)
  /-- The `size_max=30` argument — only on the high-zoom scatter branch. -/
  sizeMax : Option ℕ
  /-- The `opacity=0.7` argument — only on the high-zoom scatter branch. -/
  opacity : Option ℚ
  center : Center
  zoom : ℚ
  deriving Repr, DecidableEq

/-- Lines 188-228: choose and build the figure from the filtered rows and
the (already merged) map state.  The center and zoom recorded here are the
ones `fig.update_layout` (lines 231-238) installs on every branch,
overriding the constructor arguments. -/
def makeFigure (filtered : List Row) (state : MapState) : Figure :=
  if filtered.length = 0 then
    { kind := .placeholder
    , lats := [0], lons := [0]
    , sizes := none, sizeMax := none, opacity := none
    , center := state.center, zoom := state.zoom }
  else if state.zoom < 5 then
    { kind := .density
    , lats := filtered.map Row.latitude |>.map (·.getD 0)
    , lons := filtered.map Row.longitude |>.map (·.getD 0)
    , sizes := none, sizeMax := none, opacity := none
    , center := state.center, zoom := state.zoom }
  else
    { kind := .points
    , lats := filtered.map Row.latitude |>.map (·.getD 0)
    , lons := filtered.map Row.longitude |>.map (·.getD 0)
    , sizes := some (filtered.map Row.totalDeaths)
    , sizeMax := some 30, opacity := some (7 / 10)
    , center := state.center, zoom := state.zoom }

/-- The statistics summary of lines 240-243. -/
structure Stats where
  totalEvents : ℕ
  totalDeaths : ℚ
  totalDamage : ℚ
  deriving Repr, DecidableEq

/-- Lines 240-243: `len(filtered_df)`, `filtered_df["Total Deaths"].sum()`,
`filtered_df["Total Damage"].sum()`. -/
def computeStats (filtered : List Row) : Stats :=
  { totalEvents := filtered.length
  , totalDeaths := (filtered.map Row.totalDeaths).sum
  , totalDamage := (filtered.map Row.totalDamage).sum }

/-- The callback `update_map_and_stats` (lines 158-260): merge the viewport
event into the map state, filter the table, build the figure, update its
layout, compute the statistics, and return all three outputs. -/
def update_map_and_stats (table : List Row) (selectedYear : ℤ)
    (selectedType : String) (relayoutData : Option RelayoutData)
    (mapState : MapState) : Figure × Stats × MapState :=
  let st := updateMapState mapState relayoutData
  let filtered := filterTable table selectedYear selectedType
  (makeFigure filtered st, computeStats filtered, st)

/-- Process-wide state: the module-level `df` (line 51) and one session
`map-state` store. -/
structure AppState where
  table : List Row
  mapState : MapState
  deriving Repr, DecidableEq

/-- The inputs of one callback invocation. -/
structure CallbackInput where
  selectedYear : ℤ
  selectedType : String
  relayoutData : Option RelayoutData
  deriving Repr, DecidableEq

/-- One user interaction: Dash invokes `update_map_and_stats` and writes
its third output back into the `map-state` store.  The outputs of the callback
are the figure and the stats panel; nothing writes to `df`. -/
def stepApp (s : AppState) (inp : CallbackInput) :
    AppState × Figure × Stats :=
  let out := update_map_and_stats s.table inp.selectedYear inp.selectedType
    inp.relayoutData s.mapState
  ({ table := s.table, mapState := out.2.2 }, out.1, out.2.1)

/-! ## Sample records and claim statements -/

/-- Whether an input record survives the cleaning pipeline when processed on
its own.  Every step of `load_data` is row-wise, so this is exactly
membership of the (processed) record in the loaded table. -/
def appearsInLoad (r : RawRecord) : Bool :=
  !(cleanData [r]).isEmpty

/-- The membership condition of claim C1, in the words of the spec:
parseable latitude and longitude, allow-listed disaster type, and a
non-empty (or defaulted) location.  A present empty-string location is not
non-empty and is not defaulted, so it fails this condition; a missing
location is (per the claim) defaulted, so it passes. -/
def c1SpecCond (r : RawRecord) : Bool :=
  r.latitude.isSome && r.longitude.isSome &&
  (match r.disasterType with
   | some t => allowedTypes.contains t
   | none => false) &&
  (match r.location with
   | some s => !(s == "")
   | none => true)

/-- The membership condition the code actually implements: parseable
latitude and longitude, allow-listed disaster type, and a present
(non-null) location of any content. -/
def c1CodeCond (r : RawRecord) : Bool :=
  r.latitude.isSome && r.longitude.isSome &&
  (match r.disasterType with
   | some t => allowedTypes.contains t
   | none => false) &&
  r.location.isSome

/-- The example row of the spec: the 2011 Japan earthquake. -/
def recJapan : RawRecord :=
  { latitude := some 35, longitude := some 139, totalDeaths := some 1000
  , totalDamage := some 500000, startYear := some 2011
  , disasterType := some "Earthquake", location := some "Japan" }

/-- A fully valid record except that its `Location` cell holds the empty
string (present, not null). -/
def recEmptyLocation : RawRecord :=
  { recJapan with location := some "" }

/-- A fully valid record except that its `Location` cell is null/missing. -/
def recNoLocation : RawRecord :=
  { recJapan with location := none }

/-- A record whose `Total Deaths` cell parses to the negative number -5. -/
def recNegativeDeaths : RawRecord :=
  { recJapan with totalDeaths := some (-5) }

/-- A record whose `Total Deaths` and `Total Damage` cells are unparseable
(NaN after coercion). -/
def recUnparseableCounts : RawRecord :=
  { recJapan with totalDeaths := none, totalDamage := none }

/-- A one-row loaded table, used as a concrete table in witnesses. -/
def tableJapan : List Row :=
  cleanData [recJapan]

/-- Claim C3 exactly as stated: every record of the loaded table has
non-negative `TotalDeaths` and `TotalDamage`. -/
def c3ClaimStatement : Prop :=
  ∀ (r : RawRecord) (rec : Row), rec ∈ cleanData [r] →
    0 ≤ rec.totalDeaths ∧ 0 ≤ rec.totalDamage

/-- Claim C6 exactly as stated: an empty filtered set yields the
placeholder rendering centered at the default viewport (zoom 2,
center (20, 0)). -/
def c6ClaimStatement : Prop :=
  ∀ (table : List Row) (year : ℤ) (dtype : String)
    (ev : Option RelayoutData) (st : MapState),
    filterTable table year dtype = [] →
    (update_map_and_stats table year dtype ev st).1.kind = FigKind.placeholder ∧
    (update_map_and_stats table year dtype ev st).1.center = defaultMapState.center ∧
    (update_map_and_stats table year dtype ev st).1.zoom = defaultMapState.zoom

/-! ## Helper lemmas -/

/-- Whatever survives the one-row pipeline is the coerced, "Unknown"-filled
image of the input row. -/
theorem mem_cleanData_singleton {r : RawRecord} {row : Row}
    (h : row ∈ cleanData [r]) : row = fillUnknown (coerceRow r) := by
  by_cases h1 : requiredPresent (coerceRow r) <;>
    by_cases h2 : isAllowedType (fillUnknown (coerceRow r)) <;>
      simp_all [cleanData, List.filter_cons]

/-- Survival of a lone record reduces to the conjunction of the drop
predicate and the allow-list predicate. -/
theorem appearsInLoad_eq (r : RawRecord) :
    appearsInLoad r =
      (requiredPresent (coerceRow r) &&
        isAllowedType (fillUnknown (coerceRow r))) := by
  by_cases h1 : requiredPresent (coerceRow r) <;>
    by_cases h2 : isAllowedType (fillUnknown (coerceRow r)) <;>
      simp [appearsInLoad, cleanData, List.filter_cons, h1, h2]

/-! ## Claim C1 — loader membership characterization -/

/-- C1, counterexample: a record whose `Location` cell holds the empty
string is retained by the loader, yet the claimed membership condition
("non-empty or defaulted location") rejects it, so the claimed iff is false
at this input. -/
theorem C1_counterexample :
    appearsInLoad recEmptyLocation = true ∧
    c1SpecCond recEmptyLocation = false := by
  decide

/-- C1 (amended): a record appears in the loaded table iff its latitude
parses, its longitude parses, its disaster type is in
{Earthquake, Flood, Storm, Drought}, and its location is present
(non-null) — with no restriction on the location content and no
defaulting of missing locations. -/
theorem C1_membership_iff :
    ∀ r : RawRecord, appearsInLoad r = c1CodeCond r := by
  intro r
  rw [appearsInLoad_eq]
  rcases r with ⟨la, lo, de, da, y, dt, loc⟩
  cases la <;> cases lo <;> cases dt <;> cases loc <;>
    simp [requiredPresent, coerceRow, fillUnknown, isAllowedType, c1CodeCond]

/-! ## Claim C2 — load-failure fallback -/

/-- C2: on a load failure the loader does return the empty frame without
propagating, but building `app.layout` then evaluates
`df["Start Year"].min()` on that column-less frame, which raises
`KeyError` — so the dashboard crashes at startup instead of remaining
usable with an empty dataset.  This theorem evaluates the code at the
failing input. -/
theorem C2_load_failure_crashes_layout :
    load_data none = LoadResult.emptyFrame ∧
    buildLayout (load_data none) = Except.error "KeyError: Start Year" :=
  ⟨rfl, rfl⟩

/-! ## Claim C3 — non-negativity of aggregable fields -/

/-- C3, counterexample: the loader never checks signs, so an input whose
`Total Deaths` cell parses to -5 is retained with `TotalDeaths = -5 < 0`,
refuting the claimed invariant. -/
theorem C3_counterexample : ¬ c3ClaimStatement := by
  intro h
  have h2 := h recNegativeDeaths
    { latitude := some 35, longitude := some 139, totalDeaths := -5
    , totalDamage := 500000, startYear := 2011
    , disasterType := some "Earthquake", location := some "Japan" }
    (by decide)
  exact absurd h2.1 (by decide)

/-- C3 (amended): in every loaded record, `TotalDeaths` and `TotalDamage`
are never null — an unparseable input maps to exactly 0 and a parseable
input is stored unchanged, so the fields are non-negative exactly when the
parseable inputs are (a negative input yields a negative value). -/
theorem C3_deaths_damage_defaulting :
    ∀ (r : RawRecord) (rec : Row), rec ∈ cleanData [r] →
      (r.totalDeaths = none → rec.totalDeaths = 0) ∧
      (∀ q : ℚ, r.totalDeaths = some q → rec.totalDeaths = q) ∧
      (r.totalDamage = none → rec.totalDamage = 0) ∧
      (∀ q : ℚ, r.totalDamage = some q → rec.totalDamage = q) := by
  intro r rec h
  have he := mem_cleanData_singleton h
  subst he
  refine ⟨?_, ?_, ?_, ?_⟩ <;> intros <;> simp_all [fillUnknown, coerceRow]

/-- C3, witness: the amended theorem applied to the record whose deaths and
damage cells are unparseable — both load as exactly 0. -/
theorem C3_witness :
    fillUnknown (coerceRow recUnparseableCounts) ∈ cleanData [recUnparseableCounts] ∧
    ((recUnparseableCounts.totalDeaths = none →
       (fillUnknown (coerceRow recUnparseableCounts)).totalDeaths = 0) ∧
     (∀ q : ℚ, recUnparseableCounts.totalDeaths = some q →
       (fillUnknown (coerceRow recUnparseableCounts)).totalDeaths = q) ∧
     (recUnparseableCounts.totalDamage = none →
       (fillUnknown (coerceRow recUnparseableCounts)).totalDamage = 0) ∧
     (∀ q : ℚ, recUnparseableCounts.totalDamage = some q →
       (fillUnknown (coerceRow recUnparseableCounts)).totalDamage = q)) :=
  ⟨by decide,
   C3_deaths_damage_defaulting recUnparseableCounts
     (fillUnknown (coerceRow recUnparseableCounts)) (by decide)⟩

/-! ## Claim C4 — rendering-mode zoom boundary -/

/-- C4: for a non-empty filtered set the callback selects the density
rendering exactly when the merged zoom is strictly below 5 and the discrete
point rendering when it is at or above 5. -/
theorem C4_zoom_threshold :
    ∀ (table : List Row) (year : ℤ) (dtype : String)
      (ev : Option RelayoutData) (st : MapState),
      filterTable table year dtype ≠ [] →
      ((updateMapState st ev).zoom < 5 →
        (update_map_and_stats table year dtype ev st).1.kind = FigKind.density) ∧
      (5 ≤ (updateMapState st ev).zoom →
        (update_map_and_stats table year dtype ev st).1.kind = FigKind.points) := by
  intro table year dtype ev st hne
  have hlen : ¬ (filterTable table year dtype).length = 0 := by
    simpa [List.length_eq_zero] using hne
  constructor
  · intro hz
    show (makeFigure (filterTable table year dtype) (updateMapState st ev)).kind = _
    simp only [makeFigure]
    rw [if_neg hlen, if_pos hz]
  · intro hz
    show (makeFigure (filterTable table year dtype) (updateMapState st ev)).kind = _
    simp only [makeFigure]
    rw [if_neg hlen, if_neg (not_lt.mpr hz)]

/-- C4, witness: on the one-row 2011 Earthquake table, zoom 4.999 selects
the density mode and zoom 5 the point mode. -/
theorem C4_witness :
    filterTable tableJapan 2011 "Earthquake" ≠ [] ∧
    (((updateMapState { zoom := 4999/1000, center := { lat := 20, lon := 0 } } none).zoom < 5 →
       (update_map_and_stats tableJapan 2011 "Earthquake" none
         { zoom := 4999/1000, center := { lat := 20, lon := 0 } }).1.kind = FigKind.density) ∧
     (5 ≤ (updateMapState { zoom := 4999/1000, center := { lat := 20, lon := 0 } } none).zoom →
       (update_map_and_stats tableJapan 2011 "Earthquake" none
         { zoom := 4999/1000, center := { lat := 20, lon := 0 } }).1.kind = FigKind.points)) :=
  ⟨by decide,
   C4_zoom_threshold tableJapan 2011 "Earthquake" none
     { zoom := 4999/1000, center := { lat := 20, lon := 0 } } (by decide)⟩

/-! ## Claim C5 — viewport persistence and partial merge -/

/-- C5: a viewport-change event merges only the fields it carries — an
event carrying only a zoom leaves the center unchanged and vice versa — and
an invocation with no viewport payload (a falsy `relayoutData` or one
without the two mapbox keys) returns the prior ViewState unchanged, also as
the state output of a full callback invocation such as a filter change. -/
theorem C5_viewport_persistence :
    ∀ (table : List Row) (year : ℤ) (dtype : String) (st : MapState)
      (z : ℚ) (c : Center),
      (update_map_and_stats table year dtype none st).2.2 = st ∧
      updateMapState st none = st ∧
      updateMapState st (some { zoom := none, center := none }) = st ∧
      (updateMapState st (some { zoom := some z, center := none })).zoom = z ∧
      (updateMapState st (some { zoom := some z, center := none })).center = st.center ∧
      (updateMapState st (some { zoom := none, center := some c })).center = c ∧
      (updateMapState st (some { zoom := none, center := some c })).zoom = st.zoom ∧
      updateMapState st (some { zoom := some z, center := some c }) =
        { zoom := z, center := c } :=
  fun _ _ _ _ _ _ => ⟨rfl, rfl, rfl, rfl, rfl, rfl, rfl, rfl⟩

/-! ## Claim C6 — empty-filter placeholder -/

/-- C6, counterexample: with prior ViewState zoom 7, center (10, 10) and an
empty filtered set, the produced figure is centered at (10, 10) with zoom 7
— the current viewport, not the default one (zoom 2, center (20, 0)) the
claim states. -/
theorem C6_counterexample : ¬ c6ClaimStatement := by
  intro h
  have h2 := (h [] 1999 "Flood" none
    { zoom := 7, center := { lat := 10, lon := 10 } } rfl).2.1
  exact absurd h2 (by decide)

/-- C6 (amended): for every selection whose filtered set is empty the
callback produces, without error, a placeholder single-point rendering at
coordinates (0, 0), with the viewport equal to the current (event-merged)
ViewState rather than the default viewport. -/
theorem C6_empty_filter_placeholder :
    ∀ (table : List Row) (year : ℤ) (dtype : String)
      (ev : Option RelayoutData) (st : MapState),
      filterTable table year dtype = [] →
      (update_map_and_stats table year dtype ev st).1.kind = FigKind.placeholder ∧
      (update_map_and_stats table year dtype ev st).1.lats = [0] ∧
      (update_map_and_stats table year dtype ev st).1.lons = [0] ∧
      (update_map_and_stats table year dtype ev st).1.center =
        (updateMapState st ev).center ∧
      (update_map_and_stats table year dtype ev st).1.zoom =
        (updateMapState st ev).zoom := by
  intro table year dtype ev st h
  refine ⟨?_, ?_, ?_, ?_, ?_⟩ <;>
    · show _ = _
      simp only [update_map_and_stats, makeFigure, h]
      simp

/-- C6, witness: the amended theorem at the one-row 2011 Earthquake table
with the never-matching selection (1999, Flood) and prior state zoom 7,
center (10, 10). -/
theorem C6_witness :
    filterTable tableJapan 1999 "Flood" = [] ∧
    ((update_map_and_stats tableJapan 1999 "Flood" none
        { zoom := 7, center := { lat := 10, lon := 10 } }).1.kind = FigKind.placeholder ∧
     (update_map_and_stats tableJapan 1999 "Flood" none
        { zoom := 7, center := { lat := 10, lon := 10 } }).1.lats = [0] ∧
     (update_map_and_stats tableJapan 1999 "Flood" none
        { zoom := 7, center := { lat := 10, lon := 10 } }).1.lons = [0] ∧
     (update_map_and_stats tableJapan 1999 "Flood" none
        { zoom := 7, center := { lat := 10, lon := 10 } }).1.center =
       (updateMapState { zoom := 7, center := { lat := 10, lon := 10 } } none).center ∧
     (update_map_and_stats tableJapan 1999 "Flood" none
        { zoom := 7, center := { lat := 10, lon := 10 } }).1.zoom =
       (updateMapState { zoom := 7, center := { lat := 10, lon := 10 } } none).zoom) :=
  ⟨by decide,
   C6_empty_filter_placeholder tableJapan 1999 "Flood" none
     { zoom := 7, center := { lat := 10, lon := 10 } } (by decide)⟩

/-! ## Claim C7 — statistics correctness and purity -/

/-- C7: on every invocation the event count is the row count of the
filtered set and the two totals are the sums of `TotalDeaths` and
`TotalDamage` over it; the statistics are a pure function of the filtered
set, so two invocations with the same table and selection — whatever their
viewport events and prior states — yield identical totals. -/
theorem C7_stats_correct :
    ∀ (table : List Row) (year : ℤ) (dtype : String)
      (ev ev2 : Option RelayoutData) (st st2 : MapState),
      (update_map_and_stats table year dtype ev st).2.1 =
        { totalEvents := (filterTable table year dtype).length
        , totalDeaths := ((filterTable table year dtype).map Row.totalDeaths).sum
        , totalDamage := ((filterTable table year dtype).map Row.totalDamage).sum } ∧
      (update_map_and_stats table year dtype ev st).2.1 =
        (update_map_and_stats table year dtype ev2 st2).2.1 :=
  fun _ _ _ _ _ _ _ => ⟨rfl, rfl⟩

/-! ## Claim C8 — location defaulting -/

/-- C8: the spec and the comment of lines 38-41 intend a missing `Location`
to be defaulted to "Unknown" and the row kept, but the drop of line 36 runs
first, so the otherwise fully valid record with a null location is removed
from the table (while the same record with any present location is kept):
the `fillna("Unknown")` on `Location` is dead code. -/
theorem C8_missing_location_dropped :
    cleanData [recNoLocation] = [] ∧
    cleanData [{ recNoLocation with location := some "Japan" }] ≠ [] := by
  exact ⟨by decide, by decide⟩

/-! ## Claim C9 — table immutability and allow-list invariant -/

/-- C9: a callback invocation writes only the `map-state` store — the
loaded table after any step is exactly the table before it — and every
record the loader ever puts in the table has its disaster type in the fixed
allow-list. -/
theorem C9_table_immutable_allowlisted :
    ∀ (s : AppState) (inp : CallbackInput) (input : List RawRecord),
      (stepApp s inp).1.table = s.table ∧
      (cleanData input).all isAllowedType = true := by
  intro s inp input
  refine ⟨rfl, ?_⟩
  rw [List.all_eq_true]
  intro r hr
  exact List.of_mem_filter hr

/-! ## Claim C10 — empty-string location retained -/

/-- C10: a record whose `Location` cell is present but equal to the empty
string is retained (given parseable coordinates and an allow-listed type)
with its location left as the empty string — the drop step removes only
null cells, not empty strings. -/
theorem C10_empty_location_retained :
    ∀ (la lo de da y : ℚ) (dt : String), dt ∈ allowedTypes →
      cleanData [{ latitude := some la, longitude := some lo
                 , totalDeaths := some de, totalDamage := some da
                 , startYear := some y, disasterType := some dt
                 , location := some "" }] =
      [{ latitude := some la, longitude := some lo, totalDeaths := de
       , totalDamage := da, startYear := truncToInt y
       , disasterType := some dt, location := some "" }] := by
  intro la lo de da y dt hdt
  simp [cleanData, coerceRow, requiredPresent, fillUnknown, isAllowedType,
    List.filter_cons, hdt]

/-- C10, witness: the empty-string-location version of the Japan record is
retained verbatim. -/
theorem C10_witness :
    "Earthquake" ∈ allowedTypes ∧
    cleanData [{ latitude := some 35, longitude := some 139
               , totalDeaths := some 1000, totalDamage := some 500000
               , startYear := some 2011, disasterType := some "Earthquake"
               , location := some "" }] =
      [{ latitude := some 35, longitude := some 139, totalDeaths := 1000
       , totalDamage := 500000, startYear := truncToInt 2011
       , disasterType := some "Earthquake", location := some "" }] :=
  ⟨by decide,
   C10_empty_location_retained 35 139 1000 500000 2011 "Earthquake" (by decide)⟩

end DisasterMap
